import Mathlib

/-!
# Verification of the passport-photo geometric crop/layout engine

Shallow embedding of the geometry core of `src/utils.py` (and the preset
table of `src/app.py`): face-box resolution with fallback, the
crop-rectangle calculator `compute_crop_rect`, the pixel conversion inside
`detect_face_box`, and the 4×6 sheet composer `layout_on_4x6`.

Python floats are modelled as exact rationals (ℚ); Python `int(...)`
(truncation toward zero) is modelled by `pyInt`; Python `//` on integers
(floor division) is modelled by `Int.fdiv`.
-/

/-- Python `int(q)`: truncation toward zero (floor for nonnegative values,
ceiling for negative ones). -/
def pyInt (q : ℚ) : ℤ := if 0 ≤ q then ⌊q⌋ else ⌈q⌉

theorem pyInt_intCast (n : ℤ) : pyInt (n : ℚ) = n := by
  unfold pyInt
  split
  · exact Int.floor_intCast n
  · exact Int.ceil_intCast n

theorem pyInt_mono {q r : ℚ} (h : q ≤ r) : pyInt q ≤ pyInt r := by
  unfold pyInt
  by_cases hq : 0 ≤ q
  · rw [if_pos hq, if_pos (le_trans hq h)]
    exact Int.floor_mono h
  · by_cases hr : 0 ≤ r
    · rw [if_neg hq, if_pos hr]
      calc ⌈q⌉ ≤ ⌈(0 : ℚ)⌉ := Int.ceil_mono (le_of_not_le hq)
        _ = 0 := by simp
        _ ≤ ⌊r⌋ := Int.floor_nonneg.mpr hr
    · rw [if_neg hq, if_neg hr]
      exact Int.ceil_mono h

theorem pyInt_eq_floor {q : ℚ} (h : 0 ≤ q) : pyInt q = ⌊q⌋ := by
  unfold pyInt
  simp [h]

theorem le_pyInt {n : ℤ} {q : ℚ} (h : (n : ℚ) ≤ q) : n ≤ pyInt q := by
  calc n = pyInt (n : ℚ) := (pyInt_intCast n).symm
    _ ≤ pyInt q := pyInt_mono h

theorem pyInt_le {n : ℤ} {q : ℚ} (h : q ≤ (n : ℚ)) : pyInt q ≤ n := by
  calc pyInt q ≤ pyInt (n : ℚ) := pyInt_mono h
    _ = n := pyInt_intCast n

/-- Evaluation rule for `pyInt` on nonnegative arguments: side conditions
are plain rational-literal comparisons, dischargeable by `norm_num`. -/
theorem pyInt_eq_of_nonneg {q : ℚ} {n : ℤ} (h0 : 0 ≤ n) (h1 : (n : ℚ) ≤ q)
    (h2 : q < (n : ℚ) + 1) : pyInt q = n := by
  have hq : 0 ≤ q := le_trans (by exact_mod_cast h0) h1
  rw [pyInt_eq_floor hq]
  exact Int.floor_eq_iff.mpr ⟨h1, by exact_mod_cast h2⟩

/-- A face bounding box, pixel coordinates, as in the dicts of `utils.py`. -/
structure FaceBox where
  x : ℤ
  y : ℤ
  w : ℤ
  h : ℤ
deriving DecidableEq, Repr

/-- A size preset, one row of the `PRESETS` table in `app.py`. -/
structure Preset where
  outW : ℤ
  outH : ℤ
  targetHead : ℤ
  eyeRatio : ℚ
deriving DecidableEq, Repr

/-- The crop rectangle returned by `compute_crop_rect`. -/
structure CropRect where
  x : ℤ
  y : ℤ
  w : ℤ
  h : ℤ
deriving DecidableEq, Repr

/-- `PRESETS["United States — 2×2 in (600×600 px)"]` in `app.py`. -/
def presetUS : Preset := ⟨600, 600, 360, 60/100⟩

/-- `PRESETS["India — 35×45 mm (~413×531 px)"]` in `app.py`. -/
def presetIndia : Preset := ⟨413, 531, 330, 62/100⟩

/-- `PRESETS["EU — 35×45 mm (~413×531 px)"]` in `app.py`. -/
def presetEU : Preset := ⟨413, 531, 330, 62/100⟩

/-- `PRESETS["UK — 35×45 mm (~413×531 px)"]` in `app.py`. -/
def presetUK : Preset := ⟨413, 531, 320, 61/100⟩

/-- The preset table of `app.py`, in order. -/
def presetTable : List Preset := [presetUS, presetIndia, presetEU, presetUK]

/-- The pixel-coordinate box built by `detect_face_box` (utils.py lines
95-99) out of a relative detection box: `x = max(0, int(xmin*w))`,
`y = max(0, int(ymin*h))`, `w = int(width*w)`, `h = int(height*h)`. -/
def detectionToBox (imgW imgH : ℤ) (xmin ymin width height : ℚ) : FaceBox :=
  { x := max 0 (pyInt (xmin * imgW))
    y := max 0 (pyInt (ymin * imgH))
    w := pyInt (width * imgW)
    h := pyInt (height * imgH) }

/-- The fallback face box of `compute_crop_rect` (utils.py lines 112-114):
`fw, fh = int(imgW*0.30), int(imgH*0.35)`;
`fb = dict(x=int((imgW-fw)/2), y=int(imgH*0.2), w=fw, h=fh)`. -/
def fallbackBox (imgW imgH : ℤ) : FaceBox :=
  { x := pyInt (((imgW - pyInt ((imgW : ℚ) * (30/100)) : ℤ) : ℚ) / 2)
    y := pyInt ((imgH : ℚ) * (2/10))
    w := pyInt ((imgW : ℚ) * (30/100))
    h := pyInt ((imgH : ℚ) * (35/100)) }

/-- Lines 109-114 of `compute_crop_rect`: a present face box is used as-is,
an absent one is replaced by the fallback box. -/
def resolveFaceBox (faceBox : Option FaceBox) (imgW imgH : ℤ) : FaceBox :=
  match faceBox with
  | some fb => fb
  | none => fallbackBox imgW imgH

/-- `headTop = max(0, fb["y"] - int(0.15 * fb["h"]))` (utils.py line 116). -/
def headTopOf (fb : FaceBox) : ℤ :=
  max 0 (fb.y - pyInt ((15/100 : ℚ) * (fb.h : ℚ)))

/-- `chin = min(imgH, fb["y"] + fb["h"] + int(0.10 * fb["h"]))` (line 117). -/
def chinOf (imgH : ℤ) (fb : FaceBox) : ℤ :=
  min imgH (fb.y + fb.h + pyInt ((10/100 : ℚ) * (fb.h : ℚ)))

/-- `headHeight = max(1, chin - headTop)` (utils.py line 118). -/
def headHeightOf (imgH : ℤ) (fb : FaceBox) : ℤ :=
  max 1 (chinOf imgH fb - headTopOf fb)

/-- `targetHead = max(100, int(params["targetHead"] * (1 + scale_adj / 100.0)))`
(utils.py line 120). -/
def targetHeadOf (p : Preset) (scaleAdj : ℤ) : ℤ :=
  max 100 (pyInt ((p.targetHead : ℚ) * (1 + (scaleAdj : ℚ) / 100)))

/-- `cropH = int((headHeight * outH) / targetHead)` (utils.py line 122),
before the final clamp of line 135. -/
def cropHPre (imgH : ℤ) (fb : FaceBox) (p : Preset) (scaleAdj : ℤ) : ℤ :=
  pyInt (((headHeightOf imgH fb * p.outH : ℤ) : ℚ) / ((targetHeadOf p scaleAdj : ℤ) : ℚ))

/-- `outAspect = outW / outH` (utils.py line 107). -/
def outAspectOf (p : Preset) : ℚ := (p.outW : ℚ) / (p.outH : ℚ)

/-- `cropW = int(cropH * outAspect)` (utils.py line 123), before the final
clamp of line 134. -/
def cropWPre (imgH : ℤ) (fb : FaceBox) (p : Preset) (scaleAdj : ℤ) : ℤ :=
  pyInt ((cropHPre imgH fb p scaleAdj : ℚ) * outAspectOf p)

/-- `eyeY = headTop + int(0.40 * headHeight)` (utils.py line 125). -/
def eyeYOf (imgH : ℤ) (fb : FaceBox) : ℤ :=
  headTopOf fb + pyInt ((40/100 : ℚ) * (headHeightOf imgH fb : ℚ))

/-- Lines 126-127: `eyeRatio = params["eyeRatio"] + (eye_adj/100.0)*0.15`
then `eyeRatio = min(0.75, max(0.45, eyeRatio))`. -/
def eyeRatioOf (p : Preset) (eyeAdj : ℤ) : ℚ :=
  min (75/100) (max (45/100) (p.eyeRatio + ((eyeAdj : ℚ) / 100) * (15/100)))

/-- `cropY = int(eyeY - eyeRatio * outH * (cropH / outH))` (utils.py line
129), before the clamp of line 133. -/
def cropYPre (imgH : ℤ) (fb : FaceBox) (p : Preset) (scaleAdj eyeAdj : ℤ) : ℤ :=
  pyInt ((eyeYOf imgH fb : ℚ) -
    eyeRatioOf p eyeAdj * (p.outH : ℚ) * ((cropHPre imgH fb p scaleAdj : ℚ) / (p.outH : ℚ)))

/-- `cropX = int((fb["x"] + fb["w"] // 2) - cropW // 2)` (utils.py line
130; an all-integer expression, so `int()` is the identity), before the
clamp of line 132. -/
def cropXPre (imgH : ℤ) (fb : FaceBox) (p : Preset) (scaleAdj : ℤ) : ℤ :=
  fb.x + Int.fdiv fb.w 2 - Int.fdiv (cropWPre imgH fb p scaleAdj) 2

/-- `compute_crop_rect` (utils.py lines 102-137): resolve the face box,
compute the unclamped rectangle, then apply the final clamps of lines
132-135 — `cropX = max(0, min(cropX, imgW - cropW))`,
`cropY = max(0, min(cropY, imgH - cropH))`, `cropW = max(10, min(cropW, imgW))`,
`cropH = max(10, min(cropH, imgH))`. -/
def computeCropRect (imgW imgH : ℤ) (faceBox : Option FaceBox) (p : Preset)
    (scaleAdj eyeAdj : ℤ) : CropRect :=
  { x := max 0 (min (cropXPre imgH (resolveFaceBox faceBox imgW imgH) p scaleAdj)
      (imgW - cropWPre imgH (resolveFaceBox faceBox imgW imgH) p scaleAdj))
    y := max 0 (min (cropYPre imgH (resolveFaceBox faceBox imgW imgH) p scaleAdj eyeAdj)
      (imgH - cropHPre imgH (resolveFaceBox faceBox imgW imgH) p scaleAdj))
    w := max 10 (min (cropWPre imgH (resolveFaceBox faceBox imgW imgH) p scaleAdj) imgW)
    h := max 10 (min (cropHPre imgH (resolveFaceBox faceBox imgW imgH) p scaleAdj) imgH) }

/-! ## Evaluation of the §8 concrete scenario (imgW=1200, imgH=1600,
face box (500,300,200,250), US preset, zero adjustments) -/

/-- The face box of the concrete scenario in §8 of the spec. -/
def fbA : FaceBox := ⟨500, 300, 200, 250⟩

theorem headTopA : headTopOf fbA = 263 := by
  unfold headTopOf
  rw [pyInt_eq_of_nonneg (n := 37) (by norm_num) (by norm_num [fbA]) (by norm_num [fbA])]
  decide

theorem chinA : chinOf 1600 fbA = 575 := by
  unfold chinOf
  rw [pyInt_eq_of_nonneg (n := 25) (by norm_num) (by norm_num [fbA]) (by norm_num [fbA])]
  decide

theorem headHeightA : headHeightOf 1600 fbA = 312 := by
  unfold headHeightOf
  rw [chinA, headTopA]
  decide

theorem targetHeadA : targetHeadOf presetUS 0 = 360 := by
  unfold targetHeadOf
  rw [pyInt_eq_of_nonneg (n := 360) (by norm_num) (by norm_num [presetUS]) (by norm_num [presetUS])]
  decide

theorem cropHA : cropHPre 1600 fbA presetUS 0 = 520 := by
  unfold cropHPre
  rw [headHeightA, targetHeadA]
  apply pyInt_eq_of_nonneg <;> norm_num [presetUS]

theorem cropWA : cropWPre 1600 fbA presetUS 0 = 520 := by
  unfold cropWPre
  rw [cropHA]
  apply pyInt_eq_of_nonneg <;> norm_num [outAspectOf, presetUS]

theorem eyeYA : eyeYOf 1600 fbA = 387 := by
  unfold eyeYOf
  rw [headTopA, headHeightA]
  rw [pyInt_eq_of_nonneg (n := 124) (by norm_num) (by norm_num) (by norm_num)]
  decide

theorem eyeRatioA : eyeRatioOf presetUS 0 = 3/5 := by
  norm_num [eyeRatioOf, presetUS, min_def, max_def]

theorem cropYA : cropYPre 1600 fbA presetUS 0 0 = 75 := by
  unfold cropYPre
  rw [eyeYA, eyeRatioA, cropHA]
  apply pyInt_eq_of_nonneg <;> norm_num [presetUS]

theorem cropXA : cropXPre 1600 fbA presetUS 0 = 340 := by
  unfold cropXPre
  rw [cropWA]
  decide

theorem cropRectA : computeCropRect 1200 1600 (some fbA) presetUS 0 0 = ⟨340, 75, 520, 520⟩ := by
  unfold computeCropRect
  have hres : resolveFaceBox (some fbA) 1200 1600 = fbA := rfl
  rw [hres, cropXA, cropYA, cropWA, cropHA]
  decide

/-! ## Evaluation of scenario B: a 1×1 face box near the right edge of a
100×100 image (this drives the clamp-order flaw of §9 of the spec) -/

/-- A one-pixel face box close to the right edge of a 100×100 canvas. -/
def fbB : FaceBox := ⟨95, 50, 1, 1⟩

theorem headTopB : headTopOf fbB = 50 := by
  unfold headTopOf
  rw [pyInt_eq_of_nonneg (n := 0) (by norm_num) (by norm_num [fbB]) (by norm_num [fbB])]
  decide

theorem chinB : chinOf 100 fbB = 51 := by
  unfold chinOf
  rw [pyInt_eq_of_nonneg (n := 0) (by norm_num) (by norm_num [fbB]) (by norm_num [fbB])]
  decide

theorem headHeightB : headHeightOf 100 fbB = 1 := by
  unfold headHeightOf
  rw [chinB, headTopB]
  decide

theorem cropHB : cropHPre 100 fbB presetUS 0 = 1 := by
  unfold cropHPre
  rw [headHeightB, targetHeadA]
  apply pyInt_eq_of_nonneg <;> norm_num [presetUS]

theorem cropWB : cropWPre 100 fbB presetUS 0 = 1 := by
  unfold cropWPre
  rw [cropHB]
  apply pyInt_eq_of_nonneg <;> norm_num [outAspectOf, presetUS]

theorem eyeYB : eyeYOf 100 fbB = 50 := by
  unfold eyeYOf
  rw [headTopB, headHeightB]
  rw [pyInt_eq_of_nonneg (n := 0) (by norm_num) (by norm_num) (by norm_num)]
  decide

theorem cropYB : cropYPre 100 fbB presetUS 0 0 = 49 := by
  unfold cropYPre
  rw [eyeYB, eyeRatioA, cropHB]
  apply pyInt_eq_of_nonneg <;> norm_num [presetUS]

theorem cropXB : cropXPre 100 fbB presetUS 0 = 95 := by
  unfold cropXPre
  rw [cropWB]
  decide

theorem cropRectB : computeCropRect 100 100 (some fbB) presetUS 0 0 = ⟨95, 49, 10, 10⟩ := by
  unfold computeCropRect
  have hres : resolveFaceBox (some fbB) 100 100 = fbB := rfl
  rw [hres, cropXB, cropYB, cropWB, cropHB]
  decide

/-! ## Evaluation of scenario C: a 30×300 portrait strip, where the
unclamped crop is wider than the image (aspect ratio is destroyed) -/

/-- A 30×30 face box in a 30-pixel-wide, 300-pixel-tall canvas. -/
def fbC : FaceBox := ⟨0, 100, 30, 30⟩

theorem headTopC : headTopOf fbC = 96 := by
  unfold headTopOf
  rw [pyInt_eq_of_nonneg (n := 4) (by norm_num) (by norm_num [fbC]) (by norm_num [fbC])]
  decide

theorem chinC : chinOf 300 fbC = 133 := by
  unfold chinOf
  rw [pyInt_eq_of_nonneg (n := 3) (by norm_num) (by norm_num [fbC]) (by norm_num [fbC])]
  decide

theorem headHeightC : headHeightOf 300 fbC = 37 := by
  unfold headHeightOf
  rw [chinC, headTopC]
  decide

theorem cropHC : cropHPre 300 fbC presetUS 0 = 61 := by
  unfold cropHPre
  rw [headHeightC, targetHeadA]
  apply pyInt_eq_of_nonneg <;> norm_num [presetUS]

theorem cropWC : cropWPre 300 fbC presetUS 0 = 61 := by
  unfold cropWPre
  rw [cropHC]
  apply pyInt_eq_of_nonneg <;> norm_num [outAspectOf, presetUS]

theorem eyeYC : eyeYOf 300 fbC = 110 := by
  unfold eyeYOf
  rw [headTopC, headHeightC]
  rw [pyInt_eq_of_nonneg (n := 14) (by norm_num) (by norm_num) (by norm_num)]
  decide

theorem cropYC : cropYPre 300 fbC presetUS 0 0 = 73 := by
  unfold cropYPre
  rw [eyeYC, eyeRatioA, cropHC]
  apply pyInt_eq_of_nonneg <;> norm_num [presetUS]

theorem cropXC : cropXPre 300 fbC presetUS 0 = -15 := by
  unfold cropXPre
  rw [cropWC]
  decide

theorem cropRectC : computeCropRect 30 300 (some fbC) presetUS 0 0 = ⟨0, 73, 30, 61⟩ := by
  unfold computeCropRect
  have hres : resolveFaceBox (some fbC) 30 300 = fbC := rfl
  rw [hres, cropXC, cropYC, cropWC, cropHC]
  decide

/-! ## Evaluation of scenario D: the §8 scenario with headScalePct = 10 -/

theorem targetHeadD : targetHeadOf presetUS 10 = 396 := by
  unfold targetHeadOf
  rw [pyInt_eq_of_nonneg (n := 396) (by norm_num) (by norm_num [presetUS]) (by norm_num [presetUS])]
  decide

theorem cropHD : cropHPre 1600 fbA presetUS 10 = 472 := by
  unfold cropHPre
  rw [headHeightA, targetHeadD]
  apply pyInt_eq_of_nonneg <;> norm_num [presetUS]

theorem cropWD : cropWPre 1600 fbA presetUS 10 = 472 := by
  unfold cropWPre
  rw [cropHD]
  apply pyInt_eq_of_nonneg <;> norm_num [outAspectOf, presetUS]

/-! ## The 4×6 sheet composer (`layout_on_4x6`, utils.py lines 150-184)

A photo is modelled by its pixel dimensions; pasting is modelled by
recording the placement rectangles, in loop order.  The sheet content is
fully determined by the background, the (sole) source photo and the list
of placements. -/

/-- A canvas/photo, modelled by its pixel dimensions. -/
structure Photo where
  w : ℤ
  h : ℤ
deriving DecidableEq, Repr

/-- One pasted copy: position and size on the sheet. -/
structure Placement where
  x : ℤ
  y : ℤ
  w : ℤ
  h : ℤ
deriving DecidableEq, Repr

/-- The composed sheet: size, background colour, the photo every placement
shows (scaled), and the placement rectangles in paste order. -/
structure Sheet where
  w : ℤ
  h : ℤ
  bg : ℤ × ℤ × ℤ
  base : Option Photo
  placements : List Placement
deriving DecidableEq, Repr

/-- `SHEET_W, SHEET_H = 1800, 1200` (utils.py line 155). -/
def sheetW : ℤ := 1800

def sheetH : ℤ := 1200

/-- `COLS, ROWS = 3, 2` (utils.py line 156). -/
def sheetCols : ℤ := 3

def sheetRows : ℤ := 2

/-- `PAD_X, PAD_Y = 50, 50` (utils.py line 157). -/
def padX : ℤ := 50

def padY : ℤ := 50

/-- `GAP_X, GAP_Y = 40, 40` (utils.py line 158). -/
def gapX : ℤ := 40

def gapY : ℤ := 40

/-- `drawable_w = SHEET_W - 2*PAD_X - (COLS - 1)*GAP_X` (line 167). -/
def drawableW : ℤ := sheetW - 2 * padX - (sheetCols - 1) * gapX

/-- `drawable_h = SHEET_H - 2*PAD_Y - (ROWS - 1)*GAP_Y` (line 168). -/
def drawableH : ℤ := sheetH - 2 * padY - (sheetRows - 1) * gapY

/-- `cell_w = drawable_w // COLS` (utils.py line 169). -/
def cellW : ℤ := Int.fdiv drawableW sheetCols

/-- `cell_h = drawable_h // ROWS` (utils.py line 170). -/
def cellH : ℤ := Int.fdiv drawableH sheetRows

/-- `scale = min(cell_w / bw, cell_h / bh, 1.0)` (utils.py line 172). -/
def fitScale (bw bh : ℤ) : ℚ :=
  min (min ((cellW : ℚ) / (bw : ℚ)) ((cellH : ℚ) / (bh : ℚ))) 1

/-- `new_w = int(bw * scale)` (utils.py line 173). -/
def fittedW (bw bh : ℤ) : ℤ := pyInt ((bw : ℚ) * fitScale bw bh)

/-- `new_h = int(bh * scale)` (utils.py line 174). -/
def fittedH (bw bh : ℤ) : ℤ := pyInt ((bh : ℚ) * fitScale bw bh)

/-- `slot_x = PAD_X + c * (cell_w + GAP_X)` (utils.py line 179). -/
def slotX (c : ℤ) : ℤ := padX + c * (cellW + gapX)

/-- `slot_y = PAD_Y + r * (cell_h + GAP_Y)` (utils.py line 180). -/
def slotY (r : ℤ) : ℤ := padY + r * (cellH + gapY)

/-- `px = slot_x + (cell_w - new_w) // 2` (utils.py line 181). -/
def pasteX (bw bh c : ℤ) : ℤ := slotX c + Int.fdiv (cellW - fittedW bw bh) 2

/-- `py = slot_y + (cell_h - new_h) // 2` (utils.py line 182). -/
def pasteY (bw bh r : ℤ) : ℤ := slotY r + Int.fdiv (cellH - fittedH bw bh) 2

/-- The copy pasted for grid position `(r, c)` (utils.py line 183). -/
def placementAt (ph : Photo) (r c : ℤ) : Placement :=
  ⟨pasteX ph.w ph.h c, pasteY ph.w ph.h r, fittedW ph.w ph.h, fittedH ph.w ph.h⟩

/-- `layout_on_4x6` (utils.py lines 150-184): an 1800×1200 white sheet; if
the input list is empty it is returned bare, otherwise the first photo is
fitted once and pasted at the six grid positions, rows outer, columns
inner. -/
def layoutOn4x6 : List Photo → Sheet
  | [] => ⟨sheetW, sheetH, (255, 255, 255), none, []⟩
  | ph :: _ =>
    ⟨sheetW, sheetH, (255, 255, 255), some ph,
      [placementAt ph 0 0, placementAt ph 0 1, placementAt ph 0 2,
       placementAt ph 1 0, placementAt ph 1 1, placementAt ph 1 2]⟩

/-- Two placements cover disjoint pixel sets (half-open rectangles). -/
def placementsDisjoint (a b : Placement) : Prop :=
  a.x + a.w ≤ b.x ∨ b.x + b.w ≤ a.x ∨ a.y + a.h ≤ b.y ∨ b.y + b.h ≤ a.y

theorem cellW_eq : cellW = 540 := by decide

theorem cellH_eq : cellH = 530 := by decide

theorem fitScale_le_one (bw bh : ℤ) : fitScale bw bh ≤ 1 := min_le_right _ _

theorem fitScale_nonneg {bw bh : ℤ} (hw : 0 < bw) (hh : 0 < bh) :
    0 ≤ fitScale bw bh := by
  have hw' : (0 : ℚ) < (bw : ℚ) := by exact_mod_cast hw
  have hh' : (0 : ℚ) < (bh : ℚ) := by exact_mod_cast hh
  refine le_min (le_min ?_ ?_) (by norm_num)
  · exact div_nonneg (by rw [cellW_eq]; norm_num) hw'.le
  · exact div_nonneg (by rw [cellH_eq]; norm_num) hh'.le

theorem fittedW_nonneg {bw bh : ℤ} (hw : 0 < bw) (hh : 0 < bh) :
    0 ≤ fittedW bw bh := by
  refine le_pyInt (n := 0) ?_
  push_cast
  exact mul_nonneg (by exact_mod_cast hw.le) (fitScale_nonneg hw hh)

theorem fittedH_nonneg {bw bh : ℤ} (hw : 0 < bw) (hh : 0 < bh) :
    0 ≤ fittedH bw bh := by
  refine le_pyInt (n := 0) ?_
  push_cast
  exact mul_nonneg (by exact_mod_cast hh.le) (fitScale_nonneg hw hh)

theorem fittedW_le_base {bw bh : ℤ} (hw : 0 < bw) : fittedW bw bh ≤ bw := by
  refine pyInt_le ?_
  calc (bw : ℚ) * fitScale bw bh ≤ (bw : ℚ) * 1 :=
        mul_le_mul_of_nonneg_left (fitScale_le_one bw bh) (by exact_mod_cast hw.le)
    _ = (bw : ℚ) := mul_one _

theorem fittedH_le_base {bw bh : ℤ} (hh : 0 < bh) : fittedH bw bh ≤ bh := by
  refine pyInt_le ?_
  calc (bh : ℚ) * fitScale bw bh ≤ (bh : ℚ) * 1 :=
        mul_le_mul_of_nonneg_left (fitScale_le_one bw bh) (by exact_mod_cast hh.le)
    _ = (bh : ℚ) := mul_one _

theorem fittedW_le_cellW {bw bh : ℤ} (hw : 0 < bw) : fittedW bw bh ≤ cellW := by
  have hw' : (0 : ℚ) < (bw : ℚ) := by exact_mod_cast hw
  refine pyInt_le ?_
  have hs : fitScale bw bh ≤ (cellW : ℚ) / (bw : ℚ) :=
    le_trans (min_le_left _ _) (min_le_left _ _)
  calc (bw : ℚ) * fitScale bw bh ≤ (bw : ℚ) * ((cellW : ℚ) / (bw : ℚ)) :=
        mul_le_mul_of_nonneg_left hs hw'.le
    _ = (cellW : ℚ) := by
        rw [mul_comm]
        exact div_mul_cancel₀ _ (ne_of_gt hw')

theorem fittedH_le_cellH {bw bh : ℤ} (hh : 0 < bh) : fittedH bw bh ≤ cellH := by
  have hh' : (0 : ℚ) < (bh : ℚ) := by exact_mod_cast hh
  refine pyInt_le ?_
  have hs : fitScale bw bh ≤ (cellH : ℚ) / (bh : ℚ) :=
    le_trans (min_le_left _ _) (min_le_right _ _)
  calc (bh : ℚ) * fitScale bw bh ≤ (bh : ℚ) * ((cellH : ℚ) / (bh : ℚ)) :=
        mul_le_mul_of_nonneg_left hs hh'.le
    _ = (cellH : ℚ) := by
        rw [mul_comm]
        exact div_mul_cancel₀ _ (ne_of_gt hh')

theorem pasteX_bounds {bw bh : ℤ} (hw : 0 < bw) (hh : 0 < bh) (c : ℤ) :
    slotX c ≤ pasteX bw bh c ∧ pasteX bw bh c + fittedW bw bh ≤ slotX c + cellW := by
  have h1 := fittedW_nonneg hw hh
  have h2 := @fittedW_le_cellW bw bh hw
  unfold pasteX
  rw [Int.fdiv_eq_ediv _ (by norm_num)]
  omega

theorem pasteY_bounds {bw bh : ℤ} (hw : 0 < bw) (hh : 0 < bh) (r : ℤ) :
    slotY r ≤ pasteY bw bh r ∧ pasteY bw bh r + fittedH bw bh ≤ slotY r + cellH := by
  have h1 := fittedH_nonneg hw hh
  have h2 := @fittedH_le_cellH bw bh hh
  unfold pasteY
  rw [Int.fdiv_eq_ediv _ (by norm_num)]
  omega

theorem slotX_eq (c : ℤ) : slotX c = 50 + c * 580 := by
  unfold slotX padX gapX
  rw [cellW_eq]
  ring

theorem slotY_eq (r : ℤ) : slotY r = 50 + r * 570 := by
  unfold slotY padY gapY
  rw [cellH_eq]
  ring

theorem placementsDisjoint_symm {a b : Placement} (h : placementsDisjoint a b) :
    placementsDisjoint b a := by
  unfold placementsDisjoint at h ⊢
  tauto

theorem placement_disjoint_horiz {bw bh : ℤ} (hw : 0 < bw) (hh : 0 < bh)
    (r r' c c' : ℤ) (hcc : c + 1 ≤ c') :
    placementsDisjoint (placementAt ⟨bw, bh⟩ r c) (placementAt ⟨bw, bh⟩ r' c') := by
  have h1 := pasteX_bounds hw hh c
  have h2 := pasteX_bounds hw hh c'
  have e1 := slotX_eq c
  have e2 := slotX_eq c'
  have e3 := cellW_eq
  unfold placementsDisjoint placementAt
  dsimp only
  left
  omega

theorem placement_disjoint_vert {bw bh : ℤ} (hw : 0 < bw) (hh : 0 < bh)
    (r r' c c' : ℤ) (hrr : r + 1 ≤ r') :
    placementsDisjoint (placementAt ⟨bw, bh⟩ r c) (placementAt ⟨bw, bh⟩ r' c') := by
  have h1 := pasteY_bounds hw hh r
  have h2 := pasteY_bounds hw hh r'
  have e1 := slotY_eq r
  have e2 := slotY_eq r'
  have e3 := cellH_eq
  unfold placementsDisjoint placementAt
  dsimp only
  right; right; left
  omega

/-! ## General facts about the crop computation -/

theorem headHeightOf_pos (imgH : ℤ) (fb : FaceBox) : 1 ≤ headHeightOf imgH fb :=
  le_max_left 1 _

theorem targetHeadOf_ge (p : Preset) (s : ℤ) : 100 ≤ targetHeadOf p s :=
  le_max_left 100 _

theorem targetHeadOf_mono {p : Preset} (ht : 0 ≤ p.targetHead) {s1 s2 : ℤ}
    (h : s1 ≤ s2) : targetHeadOf p s1 ≤ targetHeadOf p s2 := by
  unfold targetHeadOf
  refine max_le_max (le_refl 100) (pyInt_mono ?_)
  have hs : (s1 : ℚ) ≤ (s2 : ℚ) := by exact_mod_cast h
  have ht' : (0 : ℚ) ≤ (p.targetHead : ℚ) := by exact_mod_cast ht
  apply mul_le_mul_of_nonneg_left _ ht'
  linarith

theorem cropHPre_anti {p : Preset} (hOH : 0 ≤ p.outH) (ht : 0 ≤ p.targetHead)
    (imgH : ℤ) (fb : FaceBox) {s1 s2 : ℤ} (h : s1 ≤ s2) :
    cropHPre imgH fb p s2 ≤ cropHPre imgH fb p s1 := by
  unfold cropHPre
  apply pyInt_mono
  have hN : (0 : ℤ) ≤ headHeightOf imgH fb * p.outH :=
    mul_nonneg (by linarith [headHeightOf_pos imgH fb]) hOH
  have h1 : (0 : ℤ) < targetHeadOf p s1 := by linarith [targetHeadOf_ge p s1]
  have h12 : targetHeadOf p s1 ≤ targetHeadOf p s2 := targetHeadOf_mono ht h
  refine div_le_div_of_nonneg_left ?_ ?_ ?_
  · exact_mod_cast hN
  · exact_mod_cast h1
  · exact_mod_cast h12

theorem cropHPre_nonneg {p : Preset} (hOH : 0 ≤ p.outH) (imgH : ℤ) (fb : FaceBox)
    (s : ℤ) : 0 ≤ cropHPre imgH fb p s := by
  unfold cropHPre
  refine le_pyInt (n := 0) ?_
  push_cast
  refine div_nonneg ?_ ?_
  · have := headHeightOf_pos imgH fb
    have hOH' : (0 : ℚ) ≤ (p.outH : ℚ) := by exact_mod_cast hOH
    have : (0 : ℚ) ≤ (headHeightOf imgH fb : ℚ) := by exact_mod_cast by linarith
    exact mul_nonneg this hOH'
  · have := targetHeadOf_ge p s
    exact_mod_cast by linarith

theorem cropWPre_anti {p : Preset} (hOW : 0 ≤ p.outW) (hOH : 0 ≤ p.outH)
    (ht : 0 ≤ p.targetHead) (imgH : ℤ) (fb : FaceBox) {s1 s2 : ℤ} (h : s1 ≤ s2) :
    cropWPre imgH fb p s2 ≤ cropWPre imgH fb p s1 := by
  unfold cropWPre
  apply pyInt_mono
  apply mul_le_mul_of_nonneg_right
  · exact_mod_cast cropHPre_anti hOH ht imgH fb h
  · unfold outAspectOf
    refine div_nonneg ?_ ?_
    · exact_mod_cast hOW
    · exact_mod_cast hOH

theorem computeCropRect_x (imgW imgH : ℤ) (faceBox : Option FaceBox) (p : Preset)
    (s e : ℤ) : (computeCropRect imgW imgH faceBox p s e).x =
      max 0 (min (cropXPre imgH (resolveFaceBox faceBox imgW imgH) p s)
        (imgW - cropWPre imgH (resolveFaceBox faceBox imgW imgH) p s)) := rfl

theorem computeCropRect_y (imgW imgH : ℤ) (faceBox : Option FaceBox) (p : Preset)
    (s e : ℤ) : (computeCropRect imgW imgH faceBox p s e).y =
      max 0 (min (cropYPre imgH (resolveFaceBox faceBox imgW imgH) p s e)
        (imgH - cropHPre imgH (resolveFaceBox faceBox imgW imgH) p s)) := rfl

theorem computeCropRect_w (imgW imgH : ℤ) (faceBox : Option FaceBox) (p : Preset)
    (s e : ℤ) : (computeCropRect imgW imgH faceBox p s e).w =
      max 10 (min (cropWPre imgH (resolveFaceBox faceBox imgW imgH) p s) imgW) := rfl

theorem computeCropRect_h (imgW imgH : ℤ) (faceBox : Option FaceBox) (p : Preset)
    (s e : ℤ) : (computeCropRect imgW imgH faceBox p s e).h =
      max 10 (min (cropHPre imgH (resolveFaceBox faceBox imgW imgH) p s) imgH) := rfl

/-! ## Claim C1 — containment of the crop rectangle -/

/-- **C1** (as stated, refuted): on the valid input `imgW = imgH = 100`,
face box `(95,50,1,1)` (inside the canvas, positive area), US preset from
the table, zero adjustments, the returned rectangle has `x + w = 105 > 100`:
the position is clamped with the unclamped 1-pixel width, then the 10-pixel
floor pushes the right edge past the canvas. -/
theorem crop_containment_cex :
    0 < (100 : ℤ) ∧ presetUS ∈ presetTable ∧
    0 ≤ fbB.x ∧ 0 ≤ fbB.y ∧ 0 < fbB.w ∧ 0 < fbB.h ∧
    fbB.x + fbB.w ≤ 100 ∧ fbB.y + fbB.h ≤ 100 ∧
    ¬((computeCropRect 100 100 (some fbB) presetUS 0 0).x +
        (computeCropRect 100 100 (some fbB) presetUS 0 0).w ≤ 100) := by
  refine ⟨by norm_num, by simp [presetTable], by decide, by decide, by decide,
    by decide, by decide, by decide, ?_⟩
  rw [cropRectB]
  decide

/-- **C1** (amended): the returned `CropRect` satisfies `0 ≤ x`,
`x + w ≤ imgW`, `0 ≤ y`, `y + h ≤ imgH` provided the canvas is at least
10 pixels in each dimension and the unclamped crop dimensions (`cropW`,
`cropH` before the final clamp) are at least 10, so that the 10-pixel
floor of the final clamp cannot enlarge the rectangle. -/
theorem crop_containment (imgW imgH : ℤ) (faceBox : Option FaceBox) (p : Preset)
    (s e : ℤ) (hW : 10 ≤ imgW) (hH : 10 ≤ imgH)
    (hcw : 10 ≤ cropWPre imgH (resolveFaceBox faceBox imgW imgH) p s)
    (hch : 10 ≤ cropHPre imgH (resolveFaceBox faceBox imgW imgH) p s) :
    0 ≤ (computeCropRect imgW imgH faceBox p s e).x ∧
    (computeCropRect imgW imgH faceBox p s e).x +
      (computeCropRect imgW imgH faceBox p s e).w ≤ imgW ∧
    0 ≤ (computeCropRect imgW imgH faceBox p s e).y ∧
    (computeCropRect imgW imgH faceBox p s e).y +
      (computeCropRect imgW imgH faceBox p s e).h ≤ imgH := by
  rw [computeCropRect_x, computeCropRect_y, computeCropRect_w, computeCropRect_h]
  omega

/-- Witness for `crop_containment` at the §8 scenario. -/
theorem crop_containment_witness :
    0 ≤ (computeCropRect 1200 1600 (some fbA) presetUS 0 0).x ∧
    (computeCropRect 1200 1600 (some fbA) presetUS 0 0).x +
      (computeCropRect 1200 1600 (some fbA) presetUS 0 0).w ≤ 1200 ∧
    0 ≤ (computeCropRect 1200 1600 (some fbA) presetUS 0 0).y ∧
    (computeCropRect 1200 1600 (some fbA) presetUS 0 0).y +
      (computeCropRect 1200 1600 (some fbA) presetUS 0 0).h ≤ 1600 :=
  crop_containment 1200 1600 (some fbA) presetUS 0 0 (by norm_num) (by norm_num)
    (by rw [show cropWPre 1600 (resolveFaceBox (some fbA) 1200 1600) presetUS 0 = 520
          from cropWA]; norm_num)
    (by rw [show cropHPre 1600 (resolveFaceBox (some fbA) 1200 1600) presetUS 0 = 520
          from cropHA]; norm_num)

/-! ## Claim C2 — the §8 concrete scenario -/

/-- **C2** (as stated, refuted): on the §8 inputs the code does NOT return
`{x:340, y:75, w:521, h:521}`; the spec truncates `y - 0.15*h` as a whole
(262) where the code truncates `int(0.15*h)` first (`300 - 37 = 263`),
which propagates to `headHeight = 312` and `cropH = cropW = 520`. -/
theorem crop_scenario_us_cex :
    computeCropRect 1200 1600 (some fbA) presetUS 0 0 ≠ ⟨340, 75, 521, 521⟩ := by
  rw [cropRectA]
  decide

/-- **C2** (amended): on `imgW=1200, imgH=1600`, face box `(500,300,200,250)`,
US preset, zero adjustments, the intermediate values are `headTop = 263`,
`chin = 575`, `headHeight = 312`, `cropH = cropW = 520`, `eyeY = 387`,
`cropY = 75`, `cropX = 340`; no clamp triggers (`340+520 ≤ 1200`,
`75+520 ≤ 1600`), and the result is `{x:340, y:75, w:520, h:520}`. -/
theorem crop_scenario_us :
    headTopOf fbA = 263 ∧ chinOf 1600 fbA = 575 ∧ headHeightOf 1600 fbA = 312 ∧
    cropHPre 1600 fbA presetUS 0 = 520 ∧ cropWPre 1600 fbA presetUS 0 = 520 ∧
    eyeYOf 1600 fbA = 387 ∧ cropYPre 1600 fbA presetUS 0 0 = 75 ∧
    cropXPre 1600 fbA presetUS 0 = 340 ∧
    340 + 520 ≤ (1200 : ℤ) ∧ 75 + 520 ≤ (1600 : ℤ) ∧
    computeCropRect 1200 1600 (some fbA) presetUS 0 0 = ⟨340, 75, 520, 520⟩ :=
  ⟨headTopA, chinA, headHeightA, cropHA, cropWA, eyeYA, cropYA, cropXA,
    by norm_num, by norm_num, cropRectA⟩

/-! ## Claim C3 — aspect ratio of the crop rectangle -/

/-- **C3** (as stated, refuted): on the valid input `imgW=30, imgH=300`,
face box `(0,100,30,30)`, US preset, zero adjustments, the unclamped crop
is 61×61 but the width clamp cuts `w` to 30 while `h` stays 61, so
`|w - round(h*outW/outH)| = 31 > 1`. -/
theorem crop_aspect_cex :
    0 < (30 : ℤ) ∧ 0 < (300 : ℤ) ∧ presetUS ∈ presetTable ∧
    0 ≤ fbC.x ∧ 0 ≤ fbC.y ∧ 0 < fbC.w ∧ 0 < fbC.h ∧
    fbC.x + fbC.w ≤ 30 ∧ fbC.y + fbC.h ≤ 300 ∧
    ¬(|(computeCropRect 30 300 (some fbC) presetUS 0 0).w -
        round (((computeCropRect 30 300 (some fbC) presetUS 0 0).h : ℚ) *
          (presetUS.outW : ℚ) / (presetUS.outH : ℚ))| ≤ 1) := by
  refine ⟨by norm_num, by norm_num, by simp [presetTable], by decide, by decide,
    by decide, by decide, by decide, by decide, ?_⟩
  rw [cropRectC]
  have e : ((CropRect.mk 0 73 30 61).h : ℚ) * (presetUS.outW : ℚ) / (presetUS.outH : ℚ) =
      ((61 : ℤ) : ℚ) := by
    norm_num [presetUS]
  rw [e, round_intCast]
  decide

/-- The one-pixel rounding gap between the truncated `cropW` and the exact
re-rounded width: core of the amended C3. -/
theorem pyInt_aspect_gap (p : Preset) (hOW : 0 ≤ p.outW) (hOH : 0 ≤ p.outH)
    (H : ℤ) (hint : 0 ≤ H) :
    |pyInt ((H : ℚ) * outAspectOf p) -
      round ((H : ℚ) * (p.outW : ℚ) / (p.outH : ℚ))| ≤ 1 := by
  have ha : (0 : ℚ) ≤ outAspectOf p := by
    unfold outAspectOf
    refine div_nonneg ?_ ?_
    · exact_mod_cast hOW
    · exact_mod_cast hOH
  have hq : (0 : ℚ) ≤ (H : ℚ) * outAspectOf p :=
    mul_nonneg (by exact_mod_cast hint) ha
  have e2 : (H : ℚ) * (p.outW : ℚ) / (p.outH : ℚ) = (H : ℚ) * outAspectOf p := by
    unfold outAspectOf
    ring
  rw [pyInt_eq_floor hq, e2, round_eq]
  have l1 : ⌊(H : ℚ) * outAspectOf p⌋ ≤ ⌊(H : ℚ) * outAspectOf p + 1/2⌋ :=
    Int.floor_mono (by linarith)
  have l2 : ⌊(H : ℚ) * outAspectOf p + 1/2⌋ ≤ ⌊(H : ℚ) * outAspectOf p⌋ + 1 := by
    rw [show ⌊(H : ℚ) * outAspectOf p⌋ + 1 = ⌊(H : ℚ) * outAspectOf p + 1⌋ from
      (Int.floor_add_one _).symm]
    exact Int.floor_mono (by linarith)
  rw [abs_le]
  omega

/-- **C3** (amended): the aspect-ratio bound `|w - round(h*outW/outH)| ≤ 1`
holds whenever the final clamp leaves the crop untouched, i.e. when the
unclamped `cropW`/`cropH` already lie in `[10, imgW]`/`[10, imgH]`;
otherwise the width/height clamps can destroy the ratio. -/
theorem crop_aspect (imgW imgH : ℤ) (faceBox : Option FaceBox) (p : Preset)
    (s e : ℤ) (hOW : 0 ≤ p.outW) (hOH : 0 ≤ p.outH)
    (hw1 : 10 ≤ cropWPre imgH (resolveFaceBox faceBox imgW imgH) p s)
    (hw2 : cropWPre imgH (resolveFaceBox faceBox imgW imgH) p s ≤ imgW)
    (hh1 : 10 ≤ cropHPre imgH (resolveFaceBox faceBox imgW imgH) p s)
    (hh2 : cropHPre imgH (resolveFaceBox faceBox imgW imgH) p s ≤ imgH) :
    |(computeCropRect imgW imgH faceBox p s e).w -
      round (((computeCropRect imgW imgH faceBox p s e).h : ℚ) *
        (p.outW : ℚ) / (p.outH : ℚ))| ≤ 1 := by
  rw [computeCropRect_w, computeCropRect_h]
  rw [show max 10 (min (cropWPre imgH (resolveFaceBox faceBox imgW imgH) p s) imgW) =
      cropWPre imgH (resolveFaceBox faceBox imgW imgH) p s by omega]
  rw [show max 10 (min (cropHPre imgH (resolveFaceBox faceBox imgW imgH) p s) imgH) =
      cropHPre imgH (resolveFaceBox faceBox imgW imgH) p s by omega]
  exact pyInt_aspect_gap p hOW hOH _ (by omega)

/-- Witness for `crop_aspect` at the §8 scenario. -/
theorem crop_aspect_witness :
    |(computeCropRect 1200 1600 (some fbA) presetUS 0 0).w -
      round (((computeCropRect 1200 1600 (some fbA) presetUS 0 0).h : ℚ) *
        (presetUS.outW : ℚ) / (presetUS.outH : ℚ))| ≤ 1 :=
  crop_aspect 1200 1600 (some fbA) presetUS 0 0 (by decide) (by decide)
    (by rw [show cropWPre 1600 (resolveFaceBox (some fbA) 1200 1600) presetUS 0 = 520
          from cropWA]; norm_num)
    (by rw [show cropWPre 1600 (resolveFaceBox (some fbA) 1200 1600) presetUS 0 = 520
          from cropWA]; norm_num)
    (by rw [show cropHPre 1600 (resolveFaceBox (some fbA) 1200 1600) presetUS 0 = 520
          from cropHA]; norm_num)
    (by rw [show cropHPre 1600 (resolveFaceBox (some fbA) 1200 1600) presetUS 0 = 520
          from cropHA]; norm_num)

/-! ## Claim C4 — clamping of a detected box -/

theorem detectionToBoxE :
    detectionToBox 100 100 (9/10) (1/10) (1/2) (1/2) = ⟨90, 10, 50, 50⟩ := by
  unfold detectionToBox
  rw [pyInt_eq_of_nonneg (n := 90) (by norm_num) (by norm_num) (by norm_num),
    pyInt_eq_of_nonneg (n := 10) (by norm_num) (by norm_num) (by norm_num),
    pyInt_eq_of_nonneg (n := 50) (by norm_num) (by norm_num) (by norm_num)]
  decide

/-- **C4** (as stated, refuted): for a detection with relative coordinates
`xmin=0.9, width=0.5` on a 100×100 image the converted box is
`(90,10,50,50)`, whose right edge `x + w = 140` exceeds `imgW = 100`: the
conversion never clamps against the canvas size. -/
theorem face_clamp_cex :
    ¬((detectionToBox 100 100 (9/10) (1/10) (1/2) (1/2)).x +
        (detectionToBox 100 100 (9/10) (1/10) (1/2) (1/2)).w ≤ 100) := by
  rw [detectionToBoxE]
  decide

/-- **C4** (amended): the detection-to-pixel conversion clamps only `x` and
`y` from below at 0 (no upper clamp against `imgW`/`imgH`, and `w`, `h`
are not clamped at all, so the box may extend past the canvas); a present
face box is passed downstream by `compute_crop_rect` unchanged. -/
theorem face_clamp :
    (∀ imgW imgH : ℤ, ∀ xmin ymin width height : ℚ,
      0 ≤ (detectionToBox imgW imgH xmin ymin width height).x ∧
      0 ≤ (detectionToBox imgW imgH xmin ymin width height).y) ∧
    (∀ fb : FaceBox, ∀ imgW imgH : ℤ, resolveFaceBox (some fb) imgW imgH = fb) :=
  ⟨fun _ _ _ _ _ _ => ⟨le_max_left 0 _, le_max_left 0 _⟩, fun _ _ _ => rfl⟩

/-! ## Claim C5 — the fallback box is non-degenerate -/

/-- **C5** (as stated, refuted): on a 1×1 image (valid: `imgW, imgH > 0`)
the fallback box has `w = int(0.30*1) = 0`, i.e. zero area. -/
theorem fallback_nondegenerate_cex :
    0 < (1 : ℤ) ∧
    ¬(0 < (resolveFaceBox none 1 1).w ∧ 0 < (resolveFaceBox none 1 1).h) := by
  have e : (resolveFaceBox none 1 1).w = 0 := by
    show pyInt (((1 : ℤ) : ℚ) * (30/100)) = 0
    exact pyInt_eq_of_nonneg (by norm_num) (by norm_num) (by norm_num)
  exact ⟨by norm_num, by simp [e]⟩

/-- **C5** (amended): the fallback box has strictly positive width and
height as soon as `imgW ≥ 4` and `imgH ≥ 3` (so that `int(0.30*imgW)` and
`int(0.35*imgH)` reach 1); for smaller canvases it degenerates. -/
theorem fallback_nondegenerate (imgW imgH : ℤ) (hw : 4 ≤ imgW) (hh : 3 ≤ imgH) :
    0 < (resolveFaceBox none imgW imgH).w ∧ 0 < (resolveFaceBox none imgW imgH).h := by
  constructor
  · show 0 < pyInt ((imgW : ℚ) * (30/100))
    have h1 : (1 : ℤ) ≤ pyInt ((imgW : ℚ) * (30/100)) := by
      refine le_pyInt ?_
      have : (4 : ℚ) ≤ (imgW : ℚ) := by exact_mod_cast hw
      push_cast
      linarith
    omega
  · show 0 < pyInt ((imgH : ℚ) * (35/100))
    have h1 : (1 : ℤ) ≤ pyInt ((imgH : ℚ) * (35/100)) := by
      refine le_pyInt ?_
      have : (3 : ℚ) ≤ (imgH : ℚ) := by exact_mod_cast hh
      push_cast
      linarith
    omega

/-- Witness for `fallback_nondegenerate` at the smallest admissible canvas. -/
theorem fallback_nondegenerate_witness :
    0 < (resolveFaceBox none 4 3).w ∧ 0 < (resolveFaceBox none 4 3).h :=
  fallback_nondegenerate 4 3 (by norm_num) (by norm_num)

/-! ## Claim C6 — the shape of the fallback box -/

/-- **C6** (as stated, refuted): on a 5-pixel-wide canvas the fallback
width is `int(5*0.30) = 1`, not the exact product `0.30*5 = 3/2`: every
fallback dimension is truncated to an integer. -/
theorem fallback_box_shape_cex :
    0 < (5 : ℤ) ∧
    ¬(((resolveFaceBox none 5 5).w : ℚ) = (30/100 : ℚ) * ((5 : ℤ) : ℚ)) := by
  refine ⟨by norm_num, ?_⟩
  have e : (resolveFaceBox none 5 5).w = 1 := by
    show pyInt (((5 : ℤ) : ℚ) * (30/100)) = 1
    exact pyInt_eq_of_nonneg (by norm_num) (by norm_num) (by norm_num)
  rw [e]
  norm_num

/-- **C6** (amended): for any `imgW, imgH > 0` the fallback box satisfies
`w = ⌊0.30*imgW⌋`, `h = ⌊0.35*imgH⌋`, `x = ⌊(imgW - w)/2⌋` (horizontally
centred up to the integer truncation) and `y = ⌊0.20*imgH⌋`. -/
theorem fallback_box_shape (imgW imgH : ℤ) (hw : 0 < imgW) (hh : 0 < imgH) :
    (resolveFaceBox none imgW imgH).w = ⌊(30/100 : ℚ) * (imgW : ℚ)⌋ ∧
    (resolveFaceBox none imgW imgH).h = ⌊(35/100 : ℚ) * (imgH : ℚ)⌋ ∧
    (resolveFaceBox none imgW imgH).x =
      ⌊((imgW - (resolveFaceBox none imgW imgH).w : ℤ) : ℚ) / 2⌋ ∧
    (resolveFaceBox none imgW imgH).y = ⌊(20/100 : ℚ) * (imgH : ℚ)⌋ := by
  have hw' : (0 : ℚ) ≤ (imgW : ℚ) := by exact_mod_cast hw.le
  have hh' : (0 : ℚ) ≤ (imgH : ℚ) := by exact_mod_cast hh.le
  refine ⟨?_, ?_, ?_, ?_⟩
  · show pyInt ((imgW : ℚ) * (30/100)) = ⌊(30/100 : ℚ) * (imgW : ℚ)⌋
    rw [pyInt_eq_floor (mul_nonneg hw' (by norm_num)), mul_comm]
  · show pyInt ((imgH : ℚ) * (35/100)) = ⌊(35/100 : ℚ) * (imgH : ℚ)⌋
    rw [pyInt_eq_floor (mul_nonneg hh' (by norm_num)), mul_comm]
  · show pyInt (((imgW - pyInt ((imgW : ℚ) * (30/100)) : ℤ) : ℚ) / 2) =
      ⌊((imgW - pyInt ((imgW : ℚ) * (30/100)) : ℤ) : ℚ) / 2⌋
    apply pyInt_eq_floor
    have hfw : pyInt ((imgW : ℚ) * (30/100)) ≤ imgW := pyInt_le (by linarith)
    have h0 : (0 : ℤ) ≤ imgW - pyInt ((imgW : ℚ) * (30/100)) := by omega
    exact div_nonneg (by exact_mod_cast h0) (by norm_num)
  · show pyInt ((imgH : ℚ) * (2/10)) = ⌊(20/100 : ℚ) * (imgH : ℚ)⌋
    rw [pyInt_eq_floor (mul_nonneg hh' (by norm_num))]
    congr 1
    ring

/-- Witness for `fallback_box_shape` on a 5×7 canvas. -/
theorem fallback_box_shape_witness :
    (resolveFaceBox none 5 7).w = ⌊(30/100 : ℚ) * ((5 : ℤ) : ℚ)⌋ ∧
    (resolveFaceBox none 5 7).h = ⌊(35/100 : ℚ) * ((7 : ℤ) : ℚ)⌋ ∧
    (resolveFaceBox none 5 7).x =
      ⌊((5 - (resolveFaceBox none 5 7).w : ℤ) : ℚ) / 2⌋ ∧
    (resolveFaceBox none 5 7).y = ⌊(20/100 : ℚ) * ((7 : ℤ) : ℚ)⌋ :=
  fallback_box_shape 5 7 (by norm_num) (by norm_num)

/-! ## Claim C7 — the 4×6 sheet composer -/

/-- **C7**: for any photo with positive dimensions the sheet is exactly
1800×1200, the six placed copies are pairwise disjoint, each copy lies in
its grid cell (`[slotX c, slotX c + cellW] × [slotY r, slotY r + cellH]`),
each copy is no larger than the input photo, and the scale factor never
exceeds 1 (no upscaling). -/
theorem sheet_layout (bw bh : ℤ) (hw : 0 < bw) (hh : 0 < bh) :
    (layoutOn4x6 [⟨bw, bh⟩]).w = 1800 ∧ (layoutOn4x6 [⟨bw, bh⟩]).h = 1200 ∧
    List.Pairwise placementsDisjoint (layoutOn4x6 [⟨bw, bh⟩]).placements ∧
    (∀ pl ∈ (layoutOn4x6 [⟨bw, bh⟩]).placements,
      pl.w ≤ bw ∧ pl.h ≤ bh ∧ 0 ≤ pl.w ∧ 0 ≤ pl.h) ∧
    (∀ r c : ℤ,
      slotX c ≤ pasteX bw bh c ∧ pasteX bw bh c + fittedW bw bh ≤ slotX c + cellW ∧
      slotY r ≤ pasteY bw bh r ∧ pasteY bw bh r + fittedH bw bh ≤ slotY r + cellH) ∧
    fitScale bw bh ≤ 1 := by
  refine ⟨rfl, rfl, ?_, ?_, ?_, fitScale_le_one bw bh⟩
  · show List.Pairwise placementsDisjoint
      [placementAt ⟨bw, bh⟩ 0 0, placementAt ⟨bw, bh⟩ 0 1, placementAt ⟨bw, bh⟩ 0 2,
       placementAt ⟨bw, bh⟩ 1 0, placementAt ⟨bw, bh⟩ 1 1, placementAt ⟨bw, bh⟩ 1 2]
    have hHz := placement_disjoint_horiz hw hh
    have hVt := placement_disjoint_vert hw hh
    refine List.Pairwise.cons ?_ (List.Pairwise.cons ?_ (List.Pairwise.cons ?_
      (List.Pairwise.cons ?_ (List.Pairwise.cons ?_ (List.Pairwise.cons ?_
        List.Pairwise.nil)))))
    · intro a ha
      simp only [List.mem_cons, List.not_mem_nil, or_false] at ha
      rcases ha with rfl | rfl | rfl | rfl | rfl
      · exact hHz 0 0 0 1 (by norm_num)
      · exact hHz 0 0 0 2 (by norm_num)
      · exact hVt 0 1 0 0 (by norm_num)
      · exact hVt 0 1 0 1 (by norm_num)
      · exact hVt 0 1 0 2 (by norm_num)
    · intro a ha
      simp only [List.mem_cons, List.not_mem_nil, or_false] at ha
      rcases ha with rfl | rfl | rfl | rfl
      · exact hHz 0 0 1 2 (by norm_num)
      · exact hVt 0 1 1 0 (by norm_num)
      · exact hVt 0 1 1 1 (by norm_num)
      · exact hVt 0 1 1 2 (by norm_num)
    · intro a ha
      simp only [List.mem_cons, List.not_mem_nil, or_false] at ha
      rcases ha with rfl | rfl | rfl
      · exact hVt 0 1 2 0 (by norm_num)
      · exact hVt 0 1 2 1 (by norm_num)
      · exact hVt 0 1 2 2 (by norm_num)
    · intro a ha
      simp only [List.mem_cons, List.not_mem_nil, or_false] at ha
      rcases ha with rfl | rfl
      · exact hHz 1 1 0 1 (by norm_num)
      · exact hHz 1 1 0 2 (by norm_num)
    · intro a ha
      simp only [List.mem_cons, List.not_mem_nil, or_false] at ha
      rcases ha with rfl
      exact hHz 1 1 1 2 (by norm_num)
    · intro a ha
      exact absurd ha (List.not_mem_nil a)
  · intro pl hpl
    simp only [show (layoutOn4x6 [(⟨bw, bh⟩ : Photo)]).placements =
        [placementAt ⟨bw, bh⟩ 0 0, placementAt ⟨bw, bh⟩ 0 1, placementAt ⟨bw, bh⟩ 0 2,
         placementAt ⟨bw, bh⟩ 1 0, placementAt ⟨bw, bh⟩ 1 1, placementAt ⟨bw, bh⟩ 1 2]
      from rfl, List.mem_cons, List.not_mem_nil, or_false] at hpl
    rcases hpl with rfl | rfl | rfl | rfl | rfl | rfl <;>
      exact ⟨fittedW_le_base hw, fittedH_le_base hh,
        fittedW_nonneg hw hh, fittedH_nonneg hw hh⟩
  · intro r c
    exact ⟨(pasteX_bounds hw hh c).1, (pasteX_bounds hw hh c).2,
      (pasteY_bounds hw hh r).1, (pasteY_bounds hw hh r).2⟩

/-- Witness for `sheet_layout` with a 600×600 photo. -/
theorem sheet_layout_witness :
    (layoutOn4x6 [⟨600, 600⟩]).w = 1800 ∧ (layoutOn4x6 [⟨600, 600⟩]).h = 1200 ∧
    List.Pairwise placementsDisjoint (layoutOn4x6 [⟨600, 600⟩]).placements ∧
    (∀ pl ∈ (layoutOn4x6 [⟨600, 600⟩]).placements,
      pl.w ≤ 600 ∧ pl.h ≤ 600 ∧ 0 ≤ pl.w ∧ 0 ≤ pl.h) ∧
    (∀ r c : ℤ,
      slotX c ≤ pasteX 600 600 c ∧ pasteX 600 600 c + fittedW 600 600 ≤ slotX c + cellW ∧
      slotY r ≤ pasteY 600 600 r ∧ pasteY 600 600 r + fittedH 600 600 ≤ slotY r + cellH) ∧
    fitScale 600 600 ≤ 1 :=
  sheet_layout 600 600 (by norm_num) (by norm_num)

/-! ## Claim C8 — monotone shrinking in the head-scale adjustment -/

/-- **C8**: with all other inputs fixed and a preset from the table, the
final crop width and height are non-increasing in `headScalePct` over
`[-10, 10]`, and at the §8 scenario they are strictly smaller at `+10`
than at `0` (472 vs 520). -/
theorem crop_monotone_scale :
    (∀ (imgW imgH : ℤ) (faceBox : Option FaceBox) (p : Preset) (s1 s2 e : ℤ),
      p ∈ presetTable → -10 ≤ s1 → s1 ≤ s2 → s2 ≤ 10 →
      (computeCropRect imgW imgH faceBox p s2 e).w ≤
        (computeCropRect imgW imgH faceBox p s1 e).w ∧
      (computeCropRect imgW imgH faceBox p s2 e).h ≤
        (computeCropRect imgW imgH faceBox p s1 e).h) ∧
    (computeCropRect 1200 1600 (some fbA) presetUS 10 0).w <
      (computeCropRect 1200 1600 (some fbA) presetUS 0 0).w ∧
    (computeCropRect 1200 1600 (some fbA) presetUS 10 0).h <
      (computeCropRect 1200 1600 (some fbA) presetUS 0 0).h := by
  constructor
  · intro imgW imgH faceBox p s1 s2 e hp _ h12 _
    have hOW : 0 ≤ p.outW := by
      simp only [presetTable, List.mem_cons, List.not_mem_nil, or_false] at hp
      rcases hp with rfl | rfl | rfl | rfl <;> decide
    have hOH : 0 ≤ p.outH := by
      simp only [presetTable, List.mem_cons, List.not_mem_nil, or_false] at hp
      rcases hp with rfl | rfl | rfl | rfl <;> decide
    have ht : 0 ≤ p.targetHead := by
      simp only [presetTable, List.mem_cons, List.not_mem_nil, or_false] at hp
      rcases hp with rfl | rfl | rfl | rfl <;> decide
    rw [computeCropRect_w imgW imgH faceBox p s2 e, computeCropRect_w imgW imgH faceBox p s1 e,
      computeCropRect_h imgW imgH faceBox p s2 e, computeCropRect_h imgW imgH faceBox p s1 e]
    have hWm := cropWPre_anti hOW hOH ht imgH (resolveFaceBox faceBox imgW imgH) h12
    have hHm := cropHPre_anti hOH ht imgH (resolveFaceBox faceBox imgW imgH) h12
    omega
  · have ew : ∀ s, (computeCropRect 1200 1600 (some fbA) presetUS s 0).w =
        max 10 (min (cropWPre 1600 fbA presetUS s) 1200) := fun _ => rfl
    have eh : ∀ s, (computeCropRect 1200 1600 (some fbA) presetUS s 0).h =
        max 10 (min (cropHPre 1600 fbA presetUS s) 1600) := fun _ => rfl
    rw [ew 10, ew 0, eh 10, eh 0, cropWD, cropWA, cropHD, cropHA]
    constructor <;> decide

/-- Witness for `crop_monotone_scale` (the universally quantified part) at
the §8 scenario with `s1 = 0`, `s2 = 10`. -/
theorem crop_monotone_scale_witness :
    (computeCropRect 1200 1600 (some fbA) presetUS 10 0).w ≤
      (computeCropRect 1200 1600 (some fbA) presetUS 0 0).w ∧
    (computeCropRect 1200 1600 (some fbA) presetUS 10 0).h ≤
      (computeCropRect 1200 1600 (some fbA) presetUS 0 0).h :=
  crop_monotone_scale.1 1200 1600 (some fbA) presetUS 0 10 0
    (by simp [presetTable]) (by norm_num) (by norm_num) (by norm_num)

/-! ## Claim C9 — empty input to the sheet composer -/

/-- **C9**: on an empty photo list `layout_on_4x6` returns the bare
all-white 1800×1200 sheet with no placements. -/
theorem sheet_empty : layoutOn4x6 [] = ⟨1800, 1200, (255, 255, 255), none, []⟩ := rfl

/-! ## Claim C10 — only the first photo matters -/

/-- **C10**: for a non-empty list the composed sheet depends only on the
first photo: the tail is ignored entirely (no cycling through the list). -/
theorem sheet_first_only (p : Photo) (rest : List Photo) :
    layoutOn4x6 (p :: rest) = layoutOn4x6 [p] := rfl
